import Mathlib

/-
Verification of the repository's two Python source files.

`src/app.py` defines `calculate_percentage` (a guarded percentage helper
that logs a warning and returns 0.0 when the total is zero) and
`process_data` (a driver running two fixed scenarios with catch-log-continue
boundaries).  We embed the numeric values as rationals (Python's `/` on the
inputs exercised here is exact real-valued division), model the possibility
of a raised exception with `Except`, and make every logging call explicit as
an emitted `LogEvent` so that the observability claims can be stated.

`src/test_app.py` tests a Flask application (routes `/` and `/bug`) whose
source file is not under `src/`; that part is modelled from the spec where a
claim needs it.
-/

namespace DemoRepo

/-- Log levels of the Python `logging` module as used by `app.py`. -/
inductive LogLevel where
  | info
  | warning
  | error
  deriving DecidableEq, Repr

/-- One record emitted to the logging sink.  The timestamp added by the
`logging.basicConfig` format string is abstracted away; level and message
text are kept. -/
structure LogEvent where
  level : LogLevel
  msg : String
  deriving DecidableEq, Repr

/-- The Python exceptions the embedded code can raise. -/
inductive PyError where
  | zeroDivisionError
  deriving DecidableEq, Repr

/-- The text Python attaches to the exception (`str(e)`). -/
def PyError.describe : PyError → String
  | .zeroDivisionError => "division by zero"

/-- Python's `/` operator: raises `ZeroDivisionError` on a zero divisor,
otherwise divides exactly (real-valued, non-truncating). -/
def pydiv (a b : ℚ) : Except PyError ℚ :=
  if b = 0 then .error .zeroDivisionError else .ok (a / b)

/-- The warning message built by the f-string in `calculate_percentage`:
`f"Attempted to calculate percentage with total=0. Returning 0%. Part: {part}"`. -/
def warnMsg (part : ℚ) : String :=
  "Attempted to calculate percentage with total=0. Returning 0%. Part: " ++ toString part

/-- The single warning record the zero-total branch emits. -/
def warnEvent (part : ℚ) : LogEvent :=
  ⟨.warning, warnMsg part⟩

/-- `calculate_percentage` from `src/app.py`.  Returns the computed value
together with the list of log records emitted during the call; a raised
exception is an `Except.error`.

```python
def calculate_percentage(part, total):
    if total == 0:
        logging.warning(f"Attempted to calculate percentage with total=0. "
                        f"Returning 0%. Part: {part}")
        return 0.0
    percentage = (part / total) * 100
    return percentage
``` -/
def calculate_percentage (part total : ℚ) : Except PyError (ℚ × List LogEvent) :=
  if total = 0 then
    .ok (0, [warnEvent part])
  else
    match pydiv part total with
    | .error e => .error e
    | .ok q => .ok (q * 100, [])

/-- The value `calculate_percentage` returns (0 as a junk default on the
raising branch, which claim C3 shows is never taken). -/
def pctValue (part total : ℚ) : ℚ :=
  match calculate_percentage part total with
  | .ok (r, _) => r
  | .error _ => 0

/-- Renders a rational with two decimal places, as CPython's `f"{x:.2f}"`
does for values exactly representable in hundredths — the only values
`process_data` ever formats. -/
def fmt2 (q : ℚ) : String :=
  let c : Int := (q * 100).floor
  let sign := if c < 0 then "-" else ""
  let a := c.natAbs
  let r := a % 100
  sign ++ toString (a / 100) ++ "." ++ (if r < 10 then "0" else "") ++ toString r

/-- The error message logged by a scenario's `except` block:
`f"An unexpected error occurred during {label} data processing: {e}"`. -/
def errMsg (label : String) (e : PyError) : String :=
  "An unexpected error occurred during " ++ label ++ " data processing: " ++ e.describe

/-- The log records produced by one `try`/`except` scenario body of
`process_data`: on success, the calculator's own records followed by the
`Completion rate` info line; on a raised exception, the single error-level
record of the `except` block. -/
def scenarioLog (label : String) (res : Except PyError (ℚ × List LogEvent)) : List LogEvent :=
  match res with
  | .ok (rate, evs) => evs ++ [⟨.info, "Completion rate (" ++ label ++ "): " ++ fmt2 rate ++ "%"⟩]
  | .error e => [⟨.error, errMsg label e⟩]

/-- The shape of the calculator `process_data` calls into. -/
abbrev CalcFn := ℚ → ℚ → Except PyError (ℚ × List LogEvent)

/-- `process_data` from `src/app.py`, parametrised by the calculator it
calls so that its fault-containment boundary can be stated for an arbitrary
(possibly raising) callee.  Scenario A is `(50, 0)`, scenario B `(75, 100)`;
each is announced by an info line and wrapped in `scenarioLog`'s
catch-log-continue boundary. -/
def processDataWith (calcFn : CalcFn) : List LogEvent :=
  ⟨.info, "Processing data: 50 successful out of 0 total."⟩ ::
    (scenarioLog "problematic" (calcFn 50 0) ++
      (⟨.info, "\nProcessing valid data: 75 successful out of 100 total."⟩ ::
        scenarioLog "valid" (calcFn 75 100)))

/-- `process_data` as written: the driver applied to `calculate_percentage`. -/
def process_data : List LogEvent :=
  processDataWith calculate_percentage

/-- A calculator stub that raises on every call, exercising the driver's
fault-containment boundary. -/
def alwaysRaise : CalcFn := fun _ _ => .error .zeroDivisionError

/-- Modelled from the spec: the Flask application file (routes `GET /` and
`GET /bug`) is not under `src/` — only its tests are.  A handler either
returns a (status, body) response or lets a Python exception escape as an
unhandled runtime fault; per the spec, `GET /` returns status 200 with the
fixed greeting body. -/
def home : Except PyError (Nat × String) :=
  .ok (200, "Sentry is working! Go to /bug to trigger an error 🪲")

/-- Modelled from the spec: the `GET /bug` handler performs the unguarded
division `1 / 0` before its return statement, so the division raises and the
handler's own response is never produced. -/
def trigger_bug : Except PyError (Nat × String) :=
  match pydiv 1 0 with
  | .error e => .error e
  | .ok _ => .ok (200, "This response is never reached.")

/-- A Python float as the zero-sign claims need it: a rational value plus a
flag marking IEEE-754 negative zero (`-0.0`), which has `val = 0` but a
negative sign bit.  IEEE `==` ignores the sign of zero, so Python's
`total == 0` guard tests `val = 0` alone. -/
structure PyFloat where
  val : ℚ
  negZero : Bool
  deriving DecidableEq, Repr

/-- Python's float `-0.0`. -/
def negFloatZero : PyFloat := ⟨0, true⟩

/-- Python's float `0.0` (positive zero), the value the guarded branch
returns. -/
def posFloatZero : PyFloat := ⟨0, false⟩

/-- `calculate_percentage` on float inputs, instrumented: the guard compares
with IEEE equality (`total.val = 0`, the zero's sign ignored), and the last
component of the result records whether the division expression of the
else-branch was executed. -/
def calculate_percentage_float (part total : PyFloat) :
    Except PyError (PyFloat × List LogEvent × Bool) :=
  if total.val = 0 then
    .ok (posFloatZero, [⟨.warning, warnMsg part.val⟩], false)
  else
    .ok (⟨part.val / total.val * 100, false⟩, [], true)

/-- `pctValue` computes the plain quotient formula whenever the total is
nonzero. -/
theorem pctValue_of_ne (p t : ℚ) (h : t ≠ 0) : pctValue p t = p / t * 100 := by
  simp [pctValue, calculate_percentage, pydiv, h]

/-- C1: for every part and every nonzero total, `calculate_percentage`
returns exactly `(part / total) * 100` under exact (real-valued,
non-truncating) division, raising nothing and emitting no log record. -/
theorem calculate_percentage_nonzero_exact (part total : ℚ) (h : total ≠ 0) :
    calculate_percentage part total = .ok (part / total * 100, []) := by
  simp [calculate_percentage, pydiv, h]

/-- Witness for C1 at `part = 50`, `total = 200`. -/
theorem calculate_percentage_nonzero_exact_witness :
    (200 : ℚ) ≠ 0 ∧ calculate_percentage 50 200 = .ok (50 / 200 * 100, []) :=
  ⟨by norm_num, calculate_percentage_nonzero_exact 50 200 (by norm_num)⟩

/-- C2: for every part, `calculate_percentage part 0` returns `0.0` and
emits exactly one warning-level record whose message ends with the literal
value of `part`. -/
theorem calculate_percentage_zero_total (part : ℚ) :
    calculate_percentage part 0 = .ok (0, [warnEvent part]) ∧
    (warnEvent part).level = .warning ∧
    ∃ s, (warnEvent part).msg = s ++ toString part :=
  ⟨by simp [calculate_percentage], rfl,
    ⟨"Attempted to calculate percentage with total=0. Returning 0%. Part: ", rfl⟩⟩

/-- C3: `calculate_percentage` never raises: for every pair of rational
inputs, including a zero total, the result is `Except.ok`. -/
theorem calculate_percentage_never_raises (part total : ℚ) :
    ∃ r evs, calculate_percentage part total = .ok (r, evs) := by
  rcases eq_or_ne total 0 with h | h
  · exact ⟨0, [warnEvent part], by simp [calculate_percentage, h]⟩
  · exact ⟨part / total * 100, [], by simp [calculate_percentage, pydiv, h]⟩

/-- C4: `calculate_percentage` emits the single warning record exactly on
the zero-total branch and emits nothing on the nonzero branch; the emitted
list has length one if and only if `total = 0`. -/
theorem calculate_percentage_emission_iff (part total : ℚ) :
    ∃ r, calculate_percentage part total =
        .ok (r, if total = 0 then [warnEvent part] else []) ∧
      ((if total = 0 then [warnEvent part] else []).length = 1 ↔ total = 0) := by
  rcases eq_or_ne total 0 with h | h
  · exact ⟨0, by simp [calculate_percentage, h], by simp [h]⟩
  · exact ⟨part / total * 100, by simp [calculate_percentage, pydiv, h], by simp [h]⟩

/-- C5: `GET /` returns status 200 with the fixed greeting body, and
`GET /bug` performs an unguarded `1 / 0` that escapes as an unhandled
`ZeroDivisionError`. -/
theorem http_routes_behaviour :
    home = .ok (200, "Sentry is working! Go to /bug to trigger an error 🪲") ∧
    trigger_bug = .error .zeroDivisionError :=
  ⟨rfl, by simp [trigger_bug, pydiv]⟩

/-- C6: scenario A `(50, 0)` yields `0.0` logged as `0.00%`, then scenario B
`(75, 100)` yields `75.0` logged as `75.00%`; the full log of `process_data`
is the five records in this order. -/
theorem process_data_scenarios :
    calculate_percentage 50 0 = .ok (0, [warnEvent 50]) ∧
    calculate_percentage 75 100 = .ok (75, []) ∧
    process_data = [
      ⟨.info, "Processing data: 50 successful out of 0 total."⟩,
      warnEvent 50,
      ⟨.info, "Completion rate (problematic): 0.00%"⟩,
      ⟨.info, "\nProcessing valid data: 75 successful out of 100 total."⟩,
      ⟨.info, "Completion rate (valid): 75.00%"⟩] := by
  refine ⟨by simp [calculate_percentage], by norm_num [calculate_percentage, pydiv], ?_⟩
  norm_num [process_data, processDataWith, calculate_percentage, pydiv, scenarioLog, fmt2,
    Rat.floor_def']
  exact ⟨rfl, rfl⟩

/-- C7: for an arbitrary calculator — raising or not — the driver logs the
scenario-A announcement first and the scenario-B announcement afterwards, so
both scenarios always execute and A precedes B; a fault raised by either
call is caught at that scenario's boundary and logged as a single
error-level record, never short-circuiting the sequence. -/
theorem process_data_fault_containment (calcFn : CalcFn) :
    ∃ la lb,
      processDataWith calcFn =
        ⟨.info, "Processing data: 50 successful out of 0 total."⟩ ::
          (la ++ ⟨.info, "\nProcessing valid data: 75 successful out of 100 total."⟩ :: lb) ∧
      (∀ e, calcFn 50 0 = .error e → la = [⟨.error, errMsg "problematic" e⟩]) ∧
      (∀ e, calcFn 75 100 = .error e → lb = [⟨.error, errMsg "valid" e⟩]) := by
  refine ⟨scenarioLog "problematic" (calcFn 50 0), scenarioLog "valid" (calcFn 75 100),
    rfl, ?_, ?_⟩
  · intro e he; simp [scenarioLog, he]
  · intro e he; simp [scenarioLog, he]

/-- Witness for C7 at the always-raising calculator stub. -/
theorem process_data_fault_containment_witness :
    ∃ la lb,
      processDataWith alwaysRaise =
        ⟨.info, "Processing data: 50 successful out of 0 total."⟩ ::
          (la ++ ⟨.info, "\nProcessing valid data: 75 successful out of 100 total."⟩ :: lb) ∧
      (∀ e, alwaysRaise 50 0 = .error e → la = [⟨.error, errMsg "problematic" e⟩]) ∧
      (∀ e, alwaysRaise 75 100 = .error e → lb = [⟨.error, errMsg "valid" e⟩]) :=
  process_data_fault_containment alwaysRaise

/-- C8: `calculate_percentage` is deterministic: two calls on equal inputs
produce equal results, both in returned value and in emitted record
content. -/
theorem calculate_percentage_deterministic (p t p' t' : ℚ) (hp : p = p') (ht : t = t') :
    calculate_percentage p t = calculate_percentage p' t' := by
  rw [hp, ht]

/-- Witness for C8 at two identical calls on `(50, 0)`. -/
theorem calculate_percentage_deterministic_witness :
    (50 : ℚ) = 50 ∧ (0 : ℚ) = 0 ∧ calculate_percentage 50 0 = calculate_percentage 50 0 :=
  ⟨rfl, rfl, calculate_percentage_deterministic 50 0 50 0 rfl rfl⟩

/-- C9: a negative part with positive total yields a negative, unclamped
percentage; in particular `calculate_percentage (-10) 100 = -10`, and the
result exceeds 100 whenever `part` exceeds a positive `total`. -/
theorem calculate_percentage_unclamped (part total : ℚ)
    (hneg : part < 0) (hpos : 0 < total) :
    pctValue part total < 0 ∧
    pctValue (-10) 100 = -10 ∧
    ∀ p t : ℚ, 0 < t → t < p → 100 < pctValue p t := by
  refine ⟨?_, ?_, ?_⟩
  · rw [pctValue_of_ne part total hpos.ne']
    have h1 : part / total < 0 := div_neg_of_neg_of_pos hneg hpos
    nlinarith
  · rw [pctValue_of_ne (-10) 100 (by norm_num)]
    norm_num
  · intro p t ht htp
    rw [pctValue_of_ne p t ht.ne']
    have h1 : 1 < p / t := (one_lt_div ht).mpr htp
    nlinarith

/-- Witness for C9 at `part = -10`, `total = 100`. -/
theorem calculate_percentage_unclamped_witness :
    (-10 : ℚ) < 0 ∧ (0 : ℚ) < 100 ∧
      (pctValue (-10) 100 < 0 ∧ pctValue (-10) 100 = -10 ∧
        ∀ p t : ℚ, 0 < t → t < p → 100 < pctValue p t) :=
  ⟨by norm_num, by norm_num,
    calculate_percentage_unclamped (-10) 100 (by norm_num) (by norm_num)⟩

/-- C10: for every float part, a total of `-0.0` satisfies the guard's
numeric equality test, so the zero-total branch runs — returning positive
`0.0` and emitting the warning — and the division expression is never
executed. -/
theorem calculate_percentage_neg_zero_total (part : PyFloat) :
    calculate_percentage_float part negFloatZero =
      .ok (posFloatZero, [⟨.warning, warnMsg part.val⟩], false) := by
  simp [calculate_percentage_float, negFloatZero]

end DemoRepo
